import Mathlib

/-!
Shallow embedding of the queued-retry delivery core of the
Cloudflare Worker Notion-sync service (`src/index.js`).

The worker exposes `handleTurnResolved`, which parses an inbound JSON body,
runs one delivery attempt (`writeToNotion`), and on a 429 response enqueues
the event in KV storage (`queueInKV`) and schedules a background sweep
(`processQueue`).  The embedding models:

* JSON values (`JsonVal`) with JavaScript truthiness and `typeof`-object
  tests, since the handler validates `!turnData || typeof turnData !== 'object'`;
* the environment bindings (`Env`): the two Notion credentials and the
  presence of the `QUEUE_KV` binding (JS falsiness of a missing/empty
  credential is `jsFalsyStr`);
* the outbound HTTP call as an oracle `NotionRequest → FetchOutcome`: the
  response status / `Retry-After` header / body id, or a thrown transport
  exception;
* KV storage as an association list of key, stored item, and the
  `expirationTtl` passed to `put`; KV faults during the sweep (a throwing
  `get`, or a throwing `put`/`delete` in the branch taken) as a per-key
  `KvFault` oracle.  A `get` returning `null` cannot arise in this
  single-threaded model because entries are read from the live store.

`Date.now()` is modelled by a `now : Nat` parameter rendered in decimal by
`natDecStr`, and `new Date().toISOString()` by an opaque `nowIso : String`.
-/

namespace NotionSync

/-- JSON values, the type of the parsed inbound request body (`turnData`). -/
inductive JsonVal where
  | jnull : JsonVal
  | jbool (b : Bool) : JsonVal
  | jnum (n : Int) : JsonVal
  | jstr (s : String) : JsonVal
  | jarr (elems : List JsonVal) : JsonVal
  | jobj (fields : List (String × JsonVal)) : JsonVal
deriving Repr

/-- JavaScript truthiness of a JSON value (`!turnData` is its negation).
`NaN` does not arise from JSON parsing and is not modelled. -/
def jsTruthy : JsonVal → Bool
  | .jnull => false
  | .jbool b => b
  | .jnum n => n != 0
  | .jstr s => s != ""
  | .jarr _ => true
  | .jobj _ => true

/-- The JavaScript test `typeof v === 'object'`: objects, arrays, and `null`. -/
def jsTypeofObject : JsonVal → Bool
  | .jnull => true
  | .jarr _ => true
  | .jobj _ => true
  | _ => false

/-- The handler's body validation `turnData && typeof turnData === 'object'`. -/
def validBody (v : JsonVal) : Bool :=
  jsTruthy v && jsTypeofObject v

/-- JavaScript property access `v.k` on a parsed JSON value; `undefined`
(absent key or non-object receiver) is collapsed to `jnull`, which has the
same falsiness. -/
def jget (v : JsonVal) (k : String) : JsonVal :=
  match v with
  | .jobj fields => ((fields.find? (fun f => f.1 == k)).map (fun f => f.2)).getD .jnull
  | _ => .jnull

/-- JavaScript string coercion used where the worker interpolates values
into templates; only the cases the worker can reach are given. -/
def jsToStr : JsonVal → String
  | .jstr s => s
  | .jnull => "null"
  | .jbool b => if b then "true" else "false"
  | .jnum n => toString n
  | .jarr _ => ""
  | .jobj _ => "[object Object]"

/-- JavaScript falsiness of an optional environment string: absent
(`undefined`) or the empty string. -/
def jsFalsyStr : Option String → Bool
  | none => true
  | some s => s == ""

/-- The worker environment: the two Notion credentials and whether the
`QUEUE_KV` binding is configured. -/
structure Env where
  NOTION_API_KEY : Option String
  NOTION_DATABASE_ID : Option String
  QUEUE_KV : Bool
deriving Repr, DecidableEq

/-- A decimal digit rendered as a character, as JavaScript renders numbers
in template literals. -/
def digitToChar (d : Nat) : Char :=
  if d = 0 then '0' else if d = 1 then '1' else if d = 2 then '2'
  else if d = 3 then '3' else if d = 4 then '4' else if d = 5 then '5'
  else if d = 6 then '6' else if d = 7 then '7' else if d = 8 then '8'
  else if d = 9 then '9' else '*'

/-- Decimal rendering of a natural number, as `${Date.now()}` and
`${response.status}` render in JavaScript template literals. -/
def natDecStr (n : Nat) : String :=
  if n = 0 then "0" else ⟨((Nat.digits 10 n).reverse.map digitToChar)⟩

/-- Result of one delivery attempt (`writeToNotion`): the JS result records
`{success:true, pageId}`, `{success:false, rateLimited:true, retryAfter}` and
`{success:false, error}`. -/
inductive WriteResult where
  | delivered (pageId : String) : WriteResult
  | rateLimited (retryAfter : Option String) : WriteResult
  | failed (reason : String) : WriteResult
deriving Repr, DecidableEq

/-- Behaviour of the single outbound `fetch` to the Notion API: a thrown
transport exception, or a response with a status, an optional `Retry-After`
header, and the `id` field of the (2xx) response body. -/
inductive FetchOutcome where
  | throws (msg : String) : FetchOutcome
  | responds (status : Nat) (retryAfter : Option String) (bodyId : String) : FetchOutcome
deriving Repr, DecidableEq

/-- The outbound request `writeToNotion` issues: destination database and
the property map it assembles. -/
structure NotionRequest where
  databaseId : String
  properties : List (String × JsonVal)
deriving Repr

/-- The page properties assembled by `writeToNotion`: required `Name`
(defaulting to `Turn ${Date.now()}` when `turnData.name` is falsy), optional
`Status` select and `Description` rich text, and the server-assigned
`Timestamp`. The nested Notion shapes are flattened to the payload text
they carry. -/
def buildProperties (turnData : JsonVal) (now : Nat) (nowIso : String) :
    List (String × JsonVal) :=
  let base := [("Name", JsonVal.jstr
    (if jsTruthy (jget turnData "name") then jsToStr (jget turnData "name")
     else "Turn " ++ natDecStr now))]
  let withStatus :=
    if jsTruthy (jget turnData "status") then
      base ++ [("Status", jget turnData "status")]
    else base
  let withDescription :=
    if jsTruthy (jget turnData "description") then
      withStatus ++ [("Description", jget turnData "description")]
    else withStatus
  withDescription ++ [("Timestamp", JsonVal.jstr nowIso)]

/-- The request `writeToNotion` sends when credentials are present. -/
def notionRequest (env : Env) (turnData : JsonVal) (now : Nat) (nowIso : String) :
    NotionRequest :=
  { databaseId := (env.NOTION_DATABASE_ID).getD ""
    properties := buildProperties turnData now nowIso }

/-- One delivery attempt (`writeToNotion` in `src/index.js`): returns the
classified result together with the number of outbound `fetch` calls made.
Missing or empty credentials throw before the call; the function's own
`catch` converts any thrown error into `{success:false, error:e.message}`. -/
def writeToNotion (env : Env) (turnData : JsonVal) (now : Nat) (nowIso : String)
    (http : NotionRequest → FetchOutcome) : WriteResult × Nat :=
  if jsFalsyStr env.NOTION_API_KEY || jsFalsyStr env.NOTION_DATABASE_ID then
    (.failed "Notion API credentials not configured", 0)
  else
    match http (notionRequest env turnData now nowIso) with
    | .throws msg => (.failed msg, 1)
    | .responds status retryAfter bodyId =>
      if status = 429 then
        (.rateLimited retryAfter, 1)
      else if ¬(200 ≤ status ∧ status ≤ 299) then
        -- `response.ok` is `status` in 200..299
        (.failed ("Notion API error: " ++ natDecStr status), 1)
      else
        (.delivered bodyId, 1)

/-- An item persisted in KV: the wrapped event, the enqueue timestamp, and
the retry counter (`retries` may be read back absent, hence `Option`). -/
structure QItem where
  data : JsonVal
  timestamp : Nat
  retries : Option Nat
deriving Repr

/-- The KV store: key, stored item, and the `expirationTtl` passed to `put`. -/
abbrev Store := List (String × QItem × Nat)

/-- The queue key `queue:${Date.now()}:${Math.random().toString(36).substr(2, 9)}`. -/
def queueKey (now : Nat) (rand : String) : String :=
  "queue:" ++ natDecStr now ++ ":" ++ rand

/-- Enqueue (`queueInKV`): persist a rate-limited event under a fresh key with a
24-hour TTL. A missing `QUEUE_KV` binding skips queuing; a throwing `put`
is caught and logged. Either way the function returns normally. -/
def queueInKV (env : Env) (putThrows : Bool) (now : Nat) (rand : String)
    (turnData : JsonVal) (store : Store) : Store :=
  if !env.QUEUE_KV then store
  else if putThrows then store
  else store ++ [(queueKey now rand, ⟨turnData, now, some 0⟩, 86400)]

/-- The read `item.retries || 0`: a JS falsy `retries` (absent or `0`) reads as `0`. -/
def jsOr0 : Option Nat → Nat
  | none => 0
  | some n => n

/-- What can go wrong with the KV operations while the sweep processes one
item: the `get` throws, or the `put`/`delete` performed by the taken branch
throws. Such exceptions are caught by the per-item `catch`. -/
inductive KvFault where
  | ok : KvFault
  | getThrows : KvFault
  | writeThrows : KvFault
deriving Repr, DecidableEq

/-- The body of `processQueue`'s per-key loop with its per-item `try`/`catch`:
returns the entry's state after the iteration (`none` when deleted). A caught
exception leaves the entry in its last-persisted state. On a still-rate-limited
re-attempt the retry count is bumped and the item re-`put` with a fresh
24-hour TTL while the new count is `< 5`, else deleted; on any other failure
the same with ceiling `3`. -/
def processEntry (env : Env) (now : Nat) (nowIso : String)
    (http : String → NotionRequest → FetchOutcome) (fault : String → KvFault) :
    String × QItem × Nat → Option (String × QItem × Nat)
  | (k, it, ttl) =>
    match fault k with
    | .getThrows => some (k, it, ttl)
    | f =>
      match (writeToNotion env it.data now nowIso (http k)).1 with
      | .delivered _ =>
        if f = .writeThrows then some (k, it, ttl) else none
      | .rateLimited _ =>
        let r := jsOr0 it.retries + 1
        if r < 5 then
          if f = .writeThrows then some (k, it, ttl)
          else some (k, { it with retries := some r }, 86400)
        else
          if f = .writeThrows then some (k, it, ttl) else none
      | .failed _ =>
        let r := jsOr0 it.retries + 1
        if r < 3 then
          if f = .writeThrows then some (k, it, ttl)
          else some (k, { it with retries := some r }, 86400)
        else
          if f = .writeThrows then some (k, it, ttl) else none

/-- One background sweep (`processQueue`): with a configured `QUEUE_KV` it
lists the keys starting with `queue:` and runs the per-item loop on each,
leaving entries outside that key space untouched; without the binding, or
when `list` itself throws (caught by the outer `catch`), the store is
unchanged. -/
def processQueue (env : Env) (now : Nat) (nowIso : String)
    (http : String → NotionRequest → FetchOutcome) (fault : String → KvFault)
    (listThrows : Bool) (store : Store) : Store :=
  if !env.QUEUE_KV then store
  else if listThrows then store
  else store.filterMap fun e =>
    if e.1.startsWith "queue:" then processEntry env now nowIso http fault e
    else some e

/-- The inbound request body, as `await request.json()` resolves: a parse
failure throws, otherwise a JSON value is produced. -/
inductive BodyParse where
  | unparsable (msg : String) : BodyParse
  | parsed (v : JsonVal) : BodyParse
deriving Repr

/-- The HTTP responses `handleTurnResolved` can produce. -/
inductive HResponse where
  | ok200 : HResponse
  | queued202 : HResponse
  | badRequest400 : HResponse
  | error500 (msg : String) : HResponse
deriving Repr, DecidableEq

/-- The `/turn-resolved` handler (`handleTurnResolved`): parse and validate
the body, run one delivery attempt, and dispatch on its result. Returns the
response, the store as of the moment the response is sent (after `queueInKV`
on the rate-limited path), and whether a background sweep was scheduled via
`ctx.waitUntil(processQueue(env))`. An unparsable body throws into the outer
`catch` (500); a non-object body is rejected with 400; a failed attempt
throws `Error(result.error || 'Failed to write to Notion')` into the outer
`catch` (500). -/
def handleTurnResolved (env : Env) (now : Nat) (nowIso : String)
    (body : BodyParse) (http : NotionRequest → FetchOutcome)
    (putThrows : Bool) (rand : String) (store : Store) :
    HResponse × Store × Bool :=
  match body with
  | .unparsable msg => (.error500 msg, store, false)
  | .parsed v =>
    if !validBody v then (.badRequest400, store, false)
    else
      match (writeToNotion env v now nowIso http).1 with
      | .delivered _ => (.ok200, store, false)
      | .rateLimited _ =>
        (.queued202, queueInKV env putThrows now rand v store, true)
      | .failed e =>
        (.error500 (if e = "" then "Failed to write to Notion" else e), store, false)

/-- Claim C3: a Delivery Attempt classifies its outbound response into exactly
one of three outcomes: HTTP 429 yields `rateLimited` capturing the
`Retry-After` header hint; any other non-2xx status yields `failed` with a
reason that includes the (decimal-rendered) status code; a 2xx status yields
`delivered` with the id extracted from the response body; and any
transport-level exception yields `failed` with the exception message as
reason. -/
theorem c3_attempt_classification (env : Env) (v : JsonVal) (now : Nat)
    (nowIso : String) (http : NotionRequest → FetchOutcome)
    (hk : jsFalsyStr env.NOTION_API_KEY = false)
    (hd : jsFalsyStr env.NOTION_DATABASE_ID = false) :
    (∀ ra bid, http (notionRequest env v now nowIso) = .responds 429 ra bid →
      (writeToNotion env v now nowIso http).1 = .rateLimited ra) ∧
    (∀ s ra bid, http (notionRequest env v now nowIso) = .responds s ra bid →
      s ≠ 429 → ¬(200 ≤ s ∧ s ≤ 299) →
      (writeToNotion env v now nowIso http).1
        = .failed ("Notion API error: " ++ natDecStr s)) ∧
    (∀ s ra bid, http (notionRequest env v now nowIso) = .responds s ra bid →
      200 ≤ s → s ≤ 299 →
      (writeToNotion env v now nowIso http).1 = .delivered bid) ∧
    (∀ msg, http (notionRequest env v now nowIso) = .throws msg →
      (writeToNotion env v now nowIso http).1 = .failed msg) := by
  refine ⟨?_, ?_, ?_, ?_⟩
  · intro ra bid h
    simp [writeToNotion, hk, hd, h]
  · intro s ra bid h h429 hrange
    simp [writeToNotion, hk, hd, h, h429, hrange]
  · intro s ra bid h h200 h299
    have h429 : ¬(s = 429) := by omega
    have hok : 200 ≤ s ∧ s ≤ 299 := ⟨h200, h299⟩
    simp [writeToNotion, hk, hd, h, h429, hok]
  · intro msg h
    simp [writeToNotion, hk, hd, h]

/-- Witness for C3 at a concrete input: a thrown transport exception is
classified as `failed` with the exception message. -/
theorem c3_attempt_classification_witness :
    (writeToNotion ⟨some "secret-token", some "db-id", true⟩ (JsonVal.jobj [])
      0 "" (fun _ => FetchOutcome.throws "network down")).1
      = WriteResult.failed "network down" :=
  (c3_attempt_classification ⟨some "secret-token", some "db-id", true⟩
    (JsonVal.jobj []) 0 "" (fun _ => FetchOutcome.throws "network down")
    rfl rfl).2.2.2 "network down" rfl

/-- Claim C4: if either credential is JS-falsy (absent or empty), the
delivery attempt resolves to `failed` whose reason contains
"credentials not configured", with zero outbound calls made. -/
theorem c4_missing_credentials (env : Env) (v : JsonVal) (now : Nat)
    (nowIso : String) (http : NotionRequest → FetchOutcome)
    (h : jsFalsyStr env.NOTION_API_KEY = true ∨
         jsFalsyStr env.NOTION_DATABASE_ID = true) :
    writeToNotion env v now nowIso http
      = (.failed "Notion API credentials not configured", 0) ∧
    "Notion API credentials not configured"
      = "Notion API " ++ "credentials not configured" := by
  refine ⟨?_, rfl⟩
  rcases h with h | h <;> simp [writeToNotion, h]

/-- Witness for C4 at a concrete input: with the API key absent the attempt
fails with the credentials reason and the outbound call count is `0`. -/
theorem c4_missing_credentials_witness :
    writeToNotion ⟨none, some "db-id", true⟩ (JsonVal.jobj []) 0 ""
        (fun _ => FetchOutcome.responds 200 none "page-1")
      = (.failed "Notion API credentials not configured", 0) ∧
    "Notion API credentials not configured"
      = "Notion API " ++ "credentials not configured" :=
  c4_missing_credentials ⟨none, some "db-id", true⟩ (JsonVal.jobj []) 0 ""
    (fun _ => FetchOutcome.responds 200 none "page-1") (Or.inl rfl)

/-- Claim C2: with queue storage available, the initial delivery attempt's
outcome determines exactly one of three continuations: on success the caller
gets the delivered outcome and the store is unchanged (no queue entry); on a
429 rate-limit response a queue entry with `retries = 0` is appended and the
caller gets the queued (202) outcome, not an error, with a sweep scheduled;
on generic failure the error is surfaced as a 500 to the caller and the
store is unchanged. -/
theorem c2_inbound_dispatch (env : Env) (now : Nat) (nowIso : String)
    (v : JsonVal) (http : NotionRequest → FetchOutcome) (rand : String)
    (store : Store) (hv : validBody v = true) (hkv : env.QUEUE_KV = true) :
    (∀ pid, (writeToNotion env v now nowIso http).1 = .delivered pid →
      handleTurnResolved env now nowIso (.parsed v) http false rand store
        = (.ok200, store, false)) ∧
    (∀ ra, (writeToNotion env v now nowIso http).1 = .rateLimited ra →
      handleTurnResolved env now nowIso (.parsed v) http false rand store
        = (.queued202,
           store ++ [(queueKey now rand, ⟨v, now, some 0⟩, 86400)], true)) ∧
    (∀ msg, (writeToNotion env v now nowIso http).1 = .failed msg →
      handleTurnResolved env now nowIso (.parsed v) http false rand store
        = (.error500 (if msg = "" then "Failed to write to Notion" else msg),
           store, false)) := by
  refine ⟨?_, ?_, ?_⟩ <;> intro x h <;>
    simp [handleTurnResolved, hv, h, queueInKV, hkv]

/-- Witness for C2 at a concrete input: a 429 response queues the event
with `retries = 0` and answers 202 "queued". -/
theorem c2_inbound_dispatch_witness :
    handleTurnResolved ⟨some "secret-token", some "db-id", true⟩ 7 "iso"
        (.parsed (JsonVal.jobj [("name", JsonVal.jstr "Turn 1")]))
        (fun _ => FetchOutcome.responds 429 (some "2") "") false "k3j9x2abc" []
      = (.queued202,
         [(queueKey 7 "k3j9x2abc",
           ⟨JsonVal.jobj [("name", JsonVal.jstr "Turn 1")], 7, some 0⟩, 86400)],
         true) :=
  (c2_inbound_dispatch ⟨some "secret-token", some "db-id", true⟩ 7 "iso"
    (JsonVal.jobj [("name", JsonVal.jstr "Turn 1")])
    (fun _ => FetchOutcome.responds 429 (some "2") "") "k3j9x2abc" []
    rfl rfl).2.1 (some "2") rfl

/-- Claim C7: an inbound payload that is not a valid structured object is
rejected immediately — an unparsable body throws into the outer catch
(500), a parsed non-object value is answered 400 — and in both cases the
store is unchanged, so no queue entry is ever created for it. -/
theorem c7_malformed_rejected (env : Env) (now : Nat) (nowIso : String)
    (http : NotionRequest → FetchOutcome) (putThrows : Bool) (rand : String)
    (store : Store) :
    (∀ msg, handleTurnResolved env now nowIso (.unparsable msg) http putThrows
        rand store = (.error500 msg, store, false)) ∧
    (∀ v, validBody v = false →
      handleTurnResolved env now nowIso (.parsed v) http putThrows rand store
        = (.badRequest400, store, false)) := by
  refine ⟨fun msg => rfl, fun v hv => ?_⟩
  simp [handleTurnResolved, hv]

/-- Witness for C7 at concrete inputs: an unparsable body and a JSON number
body are both rejected with the store unchanged. -/
theorem c7_malformed_rejected_witness :
    handleTurnResolved ⟨some "secret-token", some "db-id", true⟩ 0 ""
        (.unparsable "Unexpected token i in JSON")
        (fun _ => FetchOutcome.responds 200 none "page-1") false "k3j9x2abc" []
      = (.error500 "Unexpected token i in JSON", [], false) ∧
    handleTurnResolved ⟨some "secret-token", some "db-id", true⟩ 0 ""
        (.parsed (JsonVal.jnum 5))
        (fun _ => FetchOutcome.responds 200 none "page-1") false "k3j9x2abc" []
      = (.badRequest400, [], false) :=
  ⟨(c7_malformed_rejected ⟨some "secret-token", some "db-id", true⟩ 0 ""
      (fun _ => FetchOutcome.responds 200 none "page-1") false "k3j9x2abc" []).1
      "Unexpected token i in JSON",
   (c7_malformed_rejected ⟨some "secret-token", some "db-id", true⟩ 0 ""
      (fun _ => FetchOutcome.responds 200 none "page-1") false "k3j9x2abc" []).2
      (JsonVal.jnum 5) rfl⟩

/-- Claim C9: if the queue storage binding is absent or the storage `put`
throws during enqueue, `queueInKV` returns normally without persisting
anything, and the inbound caller of a rate-limited attempt still gets the
queued (202) outcome — the same response constructor as when the entry is
persisted, so at the public interface a dropped event is indistinguishable
from a persisted one. -/
theorem c9_degraded_enqueue_indistinguishable (env : Env) (now : Nat)
    (nowIso : String) (v : JsonVal) (http : NotionRequest → FetchOutcome)
    (putThrows : Bool) (rand : String) (store : Store) (ra : Option String)
    (hv : validBody v = true)
    (hres : (writeToNotion env v now nowIso http).1 = .rateLimited ra)
    (hdeg : env.QUEUE_KV = false ∨ putThrows = true) :
    handleTurnResolved env now nowIso (.parsed v) http putThrows rand store
      = (.queued202, store, true) ∧
    (handleTurnResolved env now nowIso (.parsed v) http false rand store).1
      = .queued202 := by
  constructor
  · rcases hdeg with h | h
    · simp [handleTurnResolved, hv, hres, queueInKV, h]
    · subst h
      simp only [handleTurnResolved, hv, Bool.not_true, Bool.false_eq_true,
        if_false, hres, queueInKV]
      split
      · rfl
      · rfl
  · simp [handleTurnResolved, hv, hres]

/-- Witness for C9 at a concrete input: with no `QUEUE_KV` binding a
rate-limited event is silently dropped while the caller still sees 202
"queued". -/
theorem c9_degraded_enqueue_indistinguishable_witness :
    handleTurnResolved ⟨some "secret-token", some "db-id", false⟩ 7 "iso"
        (.parsed (JsonVal.jobj [("name", JsonVal.jstr "Turn 1")]))
        (fun _ => FetchOutcome.responds 429 none "") false "k3j9x2abc" []
      = (.queued202, [], true) ∧
    (handleTurnResolved ⟨some "secret-token", some "db-id", false⟩ 7 "iso"
        (.parsed (JsonVal.jobj [("name", JsonVal.jstr "Turn 1")]))
        (fun _ => FetchOutcome.responds 429 none "") false "k3j9x2abc" []).1
      = .queued202 :=
  c9_degraded_enqueue_indistinguishable ⟨some "secret-token", some "db-id", false⟩
    7 "iso" (JsonVal.jobj [("name", JsonVal.jstr "Turn 1")])
    (fun _ => FetchOutcome.responds 429 none "") false "k3j9x2abc" [] none
    rfl rfl (Or.inl rfl)

/-- Helper: one sweep iteration never changes the key of an entry it keeps. -/
theorem processEntry_key (env : Env) (now : Nat) (nowIso : String)
    (http : String → NotionRequest → FetchOutcome) (fault : String → KvFault)
    (k : String) (it : QItem) (ttl : Nat) (e' : String × QItem × Nat)
    (h : processEntry env now nowIso http fault (k, it, ttl) = some e') :
    e'.1 = k := by
  cases hf : fault k with
  | getThrows =>
    simp only [processEntry, hf, Option.some.injEq] at h
    subst h; rfl
  | ok =>
    simp only [processEntry, hf] at h
    cases hw : (writeToNotion env it.data now nowIso (http k)).1 <;>
        simp only [hw] at h
    · rw [if_neg (by simp)] at h
      exact absurd h (by simp)
    · split at h
      · rw [if_neg (by simp)] at h
        injection h with h
        subst h; rfl
      · rw [if_neg (by simp)] at h
        exact absurd h (by simp)
    · split at h
      · rw [if_neg (by simp)] at h
        injection h with h
        subst h; rfl
      · rw [if_neg (by simp)] at h
        exact absurd h (by simp)
  | writeThrows =>
    simp only [processEntry, hf] at h
    cases hw : (writeToNotion env it.data now nowIso (http k)).1 <;>
        simp only [hw] at h
    · rw [if_true] at h
      injection h with h
      subst h; rfl
    · split at h <;>
        (rw [if_true] at h; injection h with h; subst h; rfl)
    · split at h <;>
        (rw [if_true] at h; injection h with h; subst h; rfl)

/-- Helper: a sweep iteration on a faulting entry (a caught exception)
leaves that entry exactly as last persisted. -/
theorem processEntry_fault_unchanged (env : Env) (now : Nat) (nowIso : String)
    (http : String → NotionRequest → FetchOutcome) (fault : String → KvFault)
    (k : String) (it : QItem) (ttl : Nat) (hf : fault k ≠ .ok) :
    processEntry env now nowIso http fault (k, it, ttl) = some (k, it, ttl) := by
  cases hfv : fault k with
  | ok => exact absurd hfv hf
  | getThrows => simp [processEntry, hfv]
  | writeThrows =>
    simp only [processEntry, hfv]
    cases hw : (writeToNotion env it.data now nowIso (http k)).1 <;> simp

/-- Claim C1: during a sweep, for a queued item whose re-attempt returns
`rateLimited`, the retry count is incremented and the item is re-persisted
with a refreshed 24-hour TTL exactly when the new count is `< 5`, and
deleted exactly when the new count reaches `5` — never before, never after;
for an item whose re-attempt returns a generic `failed`, the same holds
with ceiling `3`. -/
theorem c1_sweep_retry_budgets (env : Env) (now : Nat) (nowIso : String)
    (http : String → NotionRequest → FetchOutcome) (fault : String → KvFault)
    (k : String) (it : QItem) (ttl : Nat) (hf : fault k = .ok) :
    (∀ ra, (writeToNotion env it.data now nowIso (http k)).1 = .rateLimited ra →
      (jsOr0 it.retries + 1 < 5 →
        processEntry env now nowIso http fault (k, it, ttl)
          = some (k, { it with retries := some (jsOr0 it.retries + 1) }, 86400)) ∧
      (5 ≤ jsOr0 it.retries + 1 →
        processEntry env now nowIso http fault (k, it, ttl) = none) ∧
      (jsOr0 it.retries + 1 ≤ 5 →
        (processEntry env now nowIso http fault (k, it, ttl) = none ↔
          jsOr0 it.retries + 1 = 5))) ∧
    (∀ msg, (writeToNotion env it.data now nowIso (http k)).1 = .failed msg →
      (jsOr0 it.retries + 1 < 3 →
        processEntry env now nowIso http fault (k, it, ttl)
          = some (k, { it with retries := some (jsOr0 it.retries + 1) }, 86400)) ∧
      (3 ≤ jsOr0 it.retries + 1 →
        processEntry env now nowIso http fault (k, it, ttl) = none) ∧
      (jsOr0 it.retries + 1 ≤ 3 →
        (processEntry env now nowIso http fault (k, it, ttl) = none ↔
          jsOr0 it.retries + 1 = 3))) := by
  constructor
  · intro ra hres
    refine ⟨fun hlt => ?_, fun hge => ?_, fun hle => ?_⟩
    · simp only [processEntry, hf, hres]
      rw [if_pos hlt, if_neg (by simp)]
    · simp only [processEntry, hf, hres]
      rw [if_neg (by omega), if_neg (by simp)]
    · simp only [processEntry, hf, hres]
      by_cases hc : jsOr0 it.retries + 1 < 5
      · rw [if_pos hc, if_neg (by simp)]
        simp only [reduceCtorEq, false_iff]
        omega
      · rw [if_neg hc, if_neg (by simp)]
        simp only [true_iff]
        omega
  · intro msg hres
    refine ⟨fun hlt => ?_, fun hge => ?_, fun hle => ?_⟩
    · simp only [processEntry, hf, hres]
      rw [if_pos hlt, if_neg (by simp)]
    · simp only [processEntry, hf, hres]
      rw [if_neg (by omega), if_neg (by simp)]
    · simp only [processEntry, hf, hres]
      by_cases hc : jsOr0 it.retries + 1 < 3
      · rw [if_pos hc, if_neg (by simp)]
        simp only [reduceCtorEq, false_iff]
        omega
      · rw [if_neg hc, if_neg (by simp)]
        simp only [true_iff]
        omega

/-- Witness for C1 at a concrete input: an item with `retries = 3` whose
re-attempt is again rate limited is re-persisted with `retries = 4` and a
fresh 24-hour TTL. -/
theorem c1_sweep_retry_budgets_witness :
    processEntry ⟨some "secret-token", some "db-id", true⟩ 9 "iso"
        (fun _ _ => FetchOutcome.responds 429 none "") (fun _ => KvFault.ok)
        ("queue:1:a", ⟨JsonVal.jobj [], 1, some 3⟩, 86400)
      = some ("queue:1:a", ⟨JsonVal.jobj [], 1, some 4⟩, 86400) :=
  (((c1_sweep_retry_budgets ⟨some "secret-token", some "db-id", true⟩ 9 "iso"
      (fun _ _ => FetchOutcome.responds 429 none "") (fun _ => KvFault.ok)
      "queue:1:a" ⟨JsonVal.jobj [], 1, some 3⟩ 86400 rfl).1
    none rfl).1 (by decide))

/-- Claim C5: any exception raised while the sweep processes one queued item
is caught: the item is left in its last-persisted state (neither deleted
nor re-written), and the remaining items before and after it in the listing
are still processed exactly as they would be on their own. -/
theorem c5_sweep_fault_isolation (env : Env) (now : Nat) (nowIso : String)
    (http : String → NotionRequest → FetchOutcome) (fault : String → KvFault)
    (pre post : Store) (k : String) (it : QItem) (ttl : Nat)
    (hkv : env.QUEUE_KV = true) (hf : fault k ≠ .ok) :
    processEntry env now nowIso http fault (k, it, ttl) = some (k, it, ttl) ∧
    processQueue env now nowIso http fault false (pre ++ (k, it, ttl) :: post)
      = processQueue env now nowIso http fault false pre
        ++ (k, it, ttl) :: processQueue env now nowIso http fault false post := by
  have h1 := processEntry_fault_unchanged env now nowIso http fault k it ttl hf
  refine ⟨h1, ?_⟩
  have hq : ∀ s : Store, processQueue env now nowIso http fault false s
      = s.filterMap (fun e => if e.1.startsWith "queue:"
          then processEntry env now nowIso http fault e else some e) := by
    intro s
    simp [processQueue, hkv]
  have hfk : (if k.startsWith "queue:" = true
      then processEntry env now nowIso http fault (k, it, ttl)
      else some (k, it, ttl)) = some (k, it, ttl) := by
    by_cases hs : k.startsWith "queue:" = true
    · simpa [hs] using h1
    · simp [hs]
  have hcons : List.filterMap (fun e => if e.1.startsWith "queue:"
        then processEntry env now nowIso http fault e else some e)
        ((k, it, ttl) :: post)
      = (k, it, ttl) :: List.filterMap (fun e => if e.1.startsWith "queue:"
        then processEntry env now nowIso http fault e else some e) post :=
    List.filterMap_cons_some hfk
  rw [hq, hq, hq, List.filterMap_append, hcons]

/-- Witness for C5 at a concrete input: a two-item queue where processing
the first item throws on `get` leaves that item untouched while the second
item is still swept (here: delivered and deleted). -/
theorem c5_sweep_fault_isolation_witness :
    processEntry ⟨some "secret-token", some "db-id", true⟩ 9 "iso"
        (fun _ _ => FetchOutcome.responds 200 none "page-1")
        (fun key => if key = "queue:1:a" then KvFault.getThrows else KvFault.ok)
        ("queue:1:a", ⟨JsonVal.jobj [], 1, some 1⟩, 86400)
      = some ("queue:1:a", ⟨JsonVal.jobj [], 1, some 1⟩, 86400) ∧
    processQueue ⟨some "secret-token", some "db-id", true⟩ 9 "iso"
        (fun _ _ => FetchOutcome.responds 200 none "page-1")
        (fun key => if key = "queue:1:a" then KvFault.getThrows else KvFault.ok)
        false
        ([] ++ ("queue:1:a", ⟨JsonVal.jobj [], 1, some 1⟩, 86400)
          :: [("queue:2:b", ⟨JsonVal.jobj [], 2, some 0⟩, 86400)])
      = processQueue ⟨some "secret-token", some "db-id", true⟩ 9 "iso"
          (fun _ _ => FetchOutcome.responds 200 none "page-1")
          (fun key => if key = "queue:1:a" then KvFault.getThrows else KvFault.ok)
          false []
        ++ ("queue:1:a", ⟨JsonVal.jobj [], 1, some 1⟩, 86400)
          :: processQueue ⟨some "secret-token", some "db-id", true⟩ 9 "iso"
            (fun _ _ => FetchOutcome.responds 200 none "page-1")
            (fun key => if key = "queue:1:a" then KvFault.getThrows else KvFault.ok)
            false [("queue:2:b", ⟨JsonVal.jobj [], 2, some 0⟩, 86400)] :=
  c5_sweep_fault_isolation ⟨some "secret-token", some "db-id", true⟩ 9 "iso"
    (fun _ _ => FetchOutcome.responds 200 none "page-1")
    (fun key => if key = "queue:1:a" then KvFault.getThrows else KvFault.ok)
    [] [("queue:2:b", ⟨JsonVal.jobj [], 2, some 0⟩, 86400)]
    "queue:1:a" ⟨JsonVal.jobj [], 1, some 1⟩ 86400 rfl (by decide)

/-- Claim C6: a queued item's retry count strictly increases across failed
re-attempts — a completed (exception-free) re-attempt that keeps the item
writes back exactly the old count plus one, never less or equal — and
deletion is terminal for the queue manager: a sweep never introduces a key
that is not already persisted, so an item deleted on success, on reaching
its ceiling, or by TTL expiry is never retried or re-persisted by any later
sweep. -/
theorem c6_retry_monotone_delete_terminal (env : Env) (now : Nat)
    (nowIso : String) (http : String → NotionRequest → FetchOutcome)
    (fault : String → KvFault) (listThrows : Bool) :
    (∀ k it ttl k' it' ttl', fault k = .ok →
      ((∃ ra, (writeToNotion env it.data now nowIso (http k)).1
          = .rateLimited ra) ∨
       (∃ msg, (writeToNotion env it.data now nowIso (http k)).1
          = .failed msg)) →
      processEntry env now nowIso http fault (k, it, ttl)
        = some (k', it', ttl') →
      it'.retries = some (jsOr0 it.retries + 1) ∧
      jsOr0 it.retries < jsOr0 it'.retries) ∧
    (∀ (store : Store) (k : String),
      k ∉ store.map (fun e => e.1) →
      k ∉ (processQueue env now nowIso http fault listThrows store).map
            (fun e => e.1)) := by
  constructor
  · intro k it ttl k' it' ttl' hf hres h
    simp only [processEntry, hf] at h
    have hret : it'.retries = some (jsOr0 it.retries + 1) := by
      rcases hres with ⟨ra, hw⟩ | ⟨msg, hw⟩ <;> simp only [hw] at h <;>
        (split at h
         · rw [if_neg (by simp)] at h
           injection h with h
           cases h; rfl
         · rw [if_neg (by simp)] at h
           exact absurd h (by simp))
    refine ⟨hret, ?_⟩
    rw [hret]
    simp only [jsOr0]
    omega
  · intro store k hk hmem
    rcases hkv : env.QUEUE_KV with _ | _
    · rw [processQueue, hkv] at hmem
      exact hk (by simpa using hmem)
    · rcases hlist : listThrows with _ | _
      · subst hlist
        simp only [processQueue, hkv, Bool.not_true] at hmem
        rw [if_neg (by simp), if_neg (by simp)] at hmem
        rw [List.mem_map] at hmem
        obtain ⟨e', he', hke⟩ := hmem
        rw [List.mem_filterMap] at he'
        obtain ⟨e, he, hfe⟩ := he'
        obtain ⟨k₀, it₀, ttl₀⟩ := e
        apply hk
        rw [List.mem_map]
        refine ⟨(k₀, it₀, ttl₀), he, ?_⟩
        by_cases hs : k₀.startsWith "queue:" = true
        · rw [if_pos hs] at hfe
          rw [← hke]
          exact (processEntry_key env now nowIso http fault k₀ it₀ ttl₀ e' hfe).symm
        · rw [if_neg hs] at hfe
          injection hfe with hfe
          rw [← hke, hfe]
      · subst hlist
        rw [processQueue, hkv] at hmem
        rw [if_neg (by simp), if_pos rfl] at hmem
        exact hk hmem

/-- Witness for C6 at a concrete input: a rate-limited re-attempt bumps
`retries` from 2 to 3, and a sweep of a one-item store never makes an
absent key reappear. -/
theorem c6_retry_monotone_delete_terminal_witness :
    ((⟨JsonVal.jobj [], 1, some 3⟩ : QItem).retries
        = some (jsOr0 (some 2) + 1) ∧
      jsOr0 (some 2) < jsOr0 (⟨JsonVal.jobj [], 1, some 3⟩ : QItem).retries) ∧
    "queue:9:gone" ∉
      (processQueue ⟨some "secret-token", some "db-id", true⟩ 9 "iso"
        (fun _ _ => FetchOutcome.responds 429 none "") (fun _ => KvFault.ok)
        false [("queue:1:a", ⟨JsonVal.jobj [], 1, some 0⟩, 86400)]).map
        (fun e => e.1) :=
  ⟨(c6_retry_monotone_delete_terminal ⟨some "secret-token", some "db-id", true⟩
      9 "iso" (fun _ _ => FetchOutcome.responds 429 none "") (fun _ => KvFault.ok)
      false).1 "queue:1:a" ⟨JsonVal.jobj [], 1, some 2⟩ 86400 "queue:1:a"
      ⟨JsonVal.jobj [], 1, some 3⟩ 86400 rfl (Or.inl ⟨none, rfl⟩) rfl,
   (c6_retry_monotone_delete_terminal ⟨some "secret-token", some "db-id", true⟩
      9 "iso" (fun _ _ => FetchOutcome.responds 429 none "") (fun _ => KvFault.ok)
      false).2 [("queue:1:a", ⟨JsonVal.jobj [], 1, some 0⟩, 86400)]
      "queue:9:gone" (by decide)⟩

/-- Claim C10: when a sweep re-persists a queued item after a failed
re-attempt (rate-limited or generic), only the `retries` field of the
persisted record changes — incremented by one, an absent `retries` read as
0 — while the wrapped event data and the original enqueue timestamp are
written back unchanged, under a refreshed 24-hour TTL. -/
theorem c10_repersist_frame (env : Env) (now : Nat) (nowIso : String)
    (http : String → NotionRequest → FetchOutcome) (fault : String → KvFault)
    (k : String) (it : QItem) (ttl : Nat) (k' : String) (it' : QItem)
    (ttl' : Nat) (hf : fault k = .ok)
    (hres : (∃ ra, (writeToNotion env it.data now nowIso (http k)).1
        = .rateLimited ra) ∨
      (∃ msg, (writeToNotion env it.data now nowIso (http k)).1
        = .failed msg))
    (h : processEntry env now nowIso http fault (k, it, ttl)
        = some (k', it', ttl')) :
    k' = k ∧ it'.data = it.data ∧ it'.timestamp = it.timestamp ∧
    it'.retries = some (jsOr0 it.retries + 1) ∧ ttl' = 86400 := by
  simp only [processEntry, hf] at h
  rcases hres with ⟨ra, hw⟩ | ⟨msg, hw⟩ <;> simp only [hw] at h <;>
    (split at h
     · rw [if_neg (by simp)] at h
       injection h with h
       cases h
       exact ⟨rfl, rfl, rfl, rfl, rfl⟩
     · rw [if_neg (by simp)] at h
       exact absurd h (by simp))

/-- Witness for C10 at a concrete input: re-persisting after a generic
failure with `retries` absent writes back the same data and timestamp with
`retries = 1` and TTL 86400. -/
theorem c10_repersist_frame_witness :
    "queue:1:a" = "queue:1:a" ∧
    (⟨JsonVal.jobj [("name", JsonVal.jstr "t")], 1, some 1⟩ : QItem).data
      = (⟨JsonVal.jobj [("name", JsonVal.jstr "t")], 1, none⟩ : QItem).data ∧
    (⟨JsonVal.jobj [("name", JsonVal.jstr "t")], 1, some 1⟩ : QItem).timestamp
      = (⟨JsonVal.jobj [("name", JsonVal.jstr "t")], 1, none⟩ : QItem).timestamp ∧
    (⟨JsonVal.jobj [("name", JsonVal.jstr "t")], 1, some 1⟩ : QItem).retries
      = some (jsOr0 (⟨JsonVal.jobj [("name", JsonVal.jstr "t")], 1, none⟩ : QItem).retries + 1) ∧
    (86400 : Nat) = 86400 :=
  c10_repersist_frame ⟨some "secret-token", some "db-id", true⟩ 9 "iso"
    (fun _ _ => FetchOutcome.responds 500 none "") (fun _ => KvFault.ok)
    "queue:1:a" ⟨JsonVal.jobj [("name", JsonVal.jstr "t")], 1, none⟩ 86400
    "queue:1:a" ⟨JsonVal.jobj [("name", JsonVal.jstr "t")], 1, some 1⟩ 86400
    rfl (Or.inr ⟨"Notion API error: " ++ natDecStr 500, rfl⟩) rfl

/-- Helper: `digitToChar` is injective on decimal digits. -/
theorem digitToChar_inj : ∀ a < 10, ∀ b < 10,
    digitToChar a = digitToChar b → a = b := by decide

/-- Helper: mapping `digitToChar` over lists of decimal digits is injective. -/
theorem map_digitToChar_inj (l₁ : List Nat) : ∀ (l₂ : List Nat),
    (∀ x ∈ l₁, x < 10) → (∀ x ∈ l₂, x < 10) →
    l₁.map digitToChar = l₂.map digitToChar → l₁ = l₂ := by
  induction l₁ with
  | nil =>
    intro l₂ _ _ h
    cases l₂ with
    | nil => rfl
    | cons b t₂ => simp at h
  | cons a t ih =>
    intro l₂ h₁ h₂ h
    cases l₂ with
    | nil => simp at h
    | cons b t₂ =>
      simp only [List.map_cons, List.cons.injEq] at h
      have ha : a < 10 := h₁ a (List.mem_cons_self a t)
      have hb : b < 10 := h₂ b (List.mem_cons_self b t₂)
      have hab : a = b := digitToChar_inj a ha b hb h.1
      subst hab
      rw [ih t₂ (fun x hx => h₁ x (List.mem_cons_of_mem a hx))
        (fun x hx => h₂ x (List.mem_cons_of_mem a hx)) h.2]

/-- Helper: the decimal rendering of a positive natural number is
injective. -/
theorem natDecStr_inj {m n : Nat} (hm : m ≠ 0) (hn : n ≠ 0)
    (h : natDecStr m = natDecStr n) : m = n := by
  rw [natDecStr, natDecStr, if_neg hm, if_neg hn] at h
  have hdata : ((Nat.digits 10 m).reverse.map digitToChar)
      = ((Nat.digits 10 n).reverse.map digitToChar) := congrArg String.data h
  have hrev := map_digitToChar_inj (Nat.digits 10 m).reverse (Nat.digits 10 n).reverse
    (fun x hx => Nat.digits_lt_base (by norm_num) (List.mem_reverse.mp hx))
    (fun x hx => Nat.digits_lt_base (by norm_num) (List.mem_reverse.mp hx))
    hdata
  have hdig : Nat.digits 10 m = Nat.digits 10 n := by
    have := congrArg List.reverse hrev
    simpa using this
  calc m = Nat.ofDigits 10 (Nat.digits 10 m) := (Nat.ofDigits_digits 10 m).symm
    _ = Nat.ofDigits 10 (Nat.digits 10 n) := by rw [hdig]
    _ = n := Nat.ofDigits_digits 10 n

/-- Claim C8, counterexample: key generation does not guarantee collision-free
keys for any two Enqueue operations — the key depends only on the enqueue
time and the random suffix, so two enqueues of two different events that
draw the same millisecond and the same random suffix persist under the very
same key. -/
theorem c8_counterexample_key_collision :
    JsonVal.jobj [("name", JsonVal.jstr "Turn A")]
      ≠ JsonVal.jobj [("name", JsonVal.jstr "Turn B")] ∧
    (queueInKV ⟨some "secret-token", some "db-id", true⟩ false 1700000000000
        "k3j9x2abc" (JsonVal.jobj [("name", JsonVal.jstr "Turn A")]) []).map
        (fun e => e.1)
      = (queueInKV ⟨some "secret-token", some "db-id", true⟩ false 1700000000000
        "k3j9x2abc" (JsonVal.jobj [("name", JsonVal.jstr "Turn B")]) []).map
        (fun e => e.1) := by
  constructor
  · intro h
    simp at h
  · rfl

/-- Claim C8, amended: for two Enqueue operations with same-length random
suffixes (the generator draws 9 base-36 characters), the generated keys are
equal exactly when both the millisecond enqueue time and the random suffix
coincide — so keys are guaranteed distinct only when the (time, suffix)
pairs differ, not unconditionally. -/
theorem c8_amended_key_injective (t₁ t₂ : Nat) (r₁ r₂ : String)
    (ht₁ : t₁ ≠ 0) (ht₂ : t₂ ≠ 0) (hlen : r₁.length = r₂.length) :
    queueKey t₁ r₁ = queueKey t₂ r₂ ↔ t₁ = t₂ ∧ r₁ = r₂ := by
  constructor
  · intro h
    have hd := congrArg String.data h
    simp only [queueKey, String.data_append] at hd
    have hlen' : r₁.data.length = r₂.data.length := hlen
    obtain ⟨h₁, hr⟩ := List.append_inj' hd hlen'
    have h₂ := List.append_cancel_right h₁
    have h₃ := List.append_cancel_left h₂
    exact ⟨natDecStr_inj ht₁ ht₂ (String.ext h₃), String.ext hr⟩
  · rintro ⟨rfl, rfl⟩
    rfl

/-- Witness for the amended C8 at a concrete input: equal time and suffix
give the equal key, and conversely. -/
theorem c8_amended_key_injective_witness :
    queueKey 1700000000000 "k3j9x2abc" = queueKey 1700000000000 "k3j9x2abc" ↔
    (1700000000000 : Nat) = 1700000000000 ∧ "k3j9x2abc" = "k3j9x2abc" :=
  c8_amended_key_injective 1700000000000 1700000000000 "k3j9x2abc" "k3j9x2abc"
    (by decide) (by decide) rfl

end NotionSync
